import Mathlib

/-!
Verification of the careerly-server quota engine and transaction/webhook
reconciliation state machine against a shallow embedding of the Go sources.

Conventions of the embedding:
* `uuid.UUID` values are modelled as `Nat`; `uuid.New()` is modelled by a
  fresh-id counter carried in the store state (`DB.nextId`).
* `decimal.Decimal` (shopspring) is modelled as `Rat`; `Decimal.IntPart`
  truncates toward zero, modelled by `Int.tdiv` on numerator/denominator.
* `time.Time` is modelled at day resolution by a calendar date `DateTime`
  with lexicographic ordering; `time.AddDate(0,0,n)` is modelled by a
  standard Gregorian day-number conversion.
* SQL stores are modelled as lists of rows; each service entry point takes
  the store and returns the (possibly) updated store, so "no store
  mutation" is expressible as equality of stores.  I/O failures of the
  store itself are not modelled; the external payment gateway is modelled
  as a function-valued parameter (`MidtransClient`) whose calls may fail.
-/

namespace Careerly

/-- Calendar date, modelling `time.Time` at day resolution. -/
structure DateTime where
  y : Int
  mo : Int
  d : Int
deriving DecidableEq, Repr

/-- Lexicographic strict order on dates, modelling `time.Time` comparison
(`end_date > now` in SQL, `time.Before`, …) at day resolution. -/
def DateTime.ltb (a b : DateTime) : Bool :=
  if a.y ≠ b.y then decide (a.y < b.y)
  else if a.mo ≠ b.mo then decide (a.mo < b.mo)
  else decide (a.d < b.d)

/-- Day number of a Gregorian date (days since 0000-03-01), used to model
Go `time.AddDate(0, 0, n)`. -/
def daysFromCivil (y m d : Int) : Int :=
  let yy := if m ≤ 2 then y - 1 else y
  let mm := if m ≤ 2 then m + 9 else m - 3
  365 * yy + yy.fdiv 4 - yy.fdiv 100 + yy.fdiv 400 + (153 * mm + 2).fdiv 5 + d - 1

/-- Gregorian date of a day number; inverse of `daysFromCivil`. -/
def civilFromDays (z : Int) : DateTime :=
  let y0 := (10000 * z + 14780).fdiv 3652425
  let d0 := z - (365 * y0 + y0.fdiv 4 - y0.fdiv 100 + y0.fdiv 400)
  let y1 := if d0 < 0 then y0 - 1 else y0
  let dd1 := z - (365 * y1 + y1.fdiv 4 - y1.fdiv 100 + y1.fdiv 400)
  let mi := (100 * dd1 + 52).fdiv 3060
  ⟨y1 + (mi + 2).fdiv 12, (mi + 2).emod 12 + 1, dd1 - (mi * 306 + 5).fdiv 10 + 1⟩

/-- Model of Go `t.AddDate(0, 0, n)`. -/
def DateTime.addDays (t : DateTime) (n : Int) : DateTime :=
  civilFromDays (daysFromCivil t.y t.mo t.d + n)

/-- Quota period key: the first-of-month date `time.Date(now.Year(),
now.Month(), 1, 0, 0, 0, 0, time.UTC)` is determined by (year, month). -/
structure MonthKey where
  y : Int
  mo : Int
deriving DecidableEq, Repr

/-- `time.Date(now.Year(), now.Month(), 1, …)` as computed by the quota
service and the usage repository. -/
def periodMonthOf (t : DateTime) : MonthKey := ⟨t.y, t.mo⟩

/-- internal/domain/transaction.go `TransactionStatus`. -/
inductive TransactionStatus
  | pending
  | success
  | failed
  | expired
  | cancel
deriving DecidableEq, Repr

/-- internal/domain (resume.go) `SubscriptionStatus`. -/
inductive SubscriptionStatus
  | active
  | expired
  | canceled
deriving DecidableEq, Repr

/-- internal/domain (resume.go) `FeatureType`. -/
inductive FeatureType
  | resume
  | atsCheck
  | interview
deriving DecidableEq, Repr

/-- Subscription plan row (`domain.Plan`); `price` models
`decimal.Decimal`, the `Option` fields model nullable `*int`. -/
structure Plan where
  id : Nat
  name : String
  displayName : String
  price : Rat
  durationDays : Option Int
  maxResumes : Option Int
  maxATSChecks : Option Int
  maxInterviews : Option Int
  isActive : Bool
  createdAt : DateTime
  deletedAt : Option DateTime
deriving DecidableEq, Repr

/-- `shopspring/decimal` `Decimal.IntPart`: integer component, truncated
toward zero (Go int64 conversion of the decimal). -/
def intPart (q : Rat) : Int := q.num.tdiv (q.den : Int)

/-- User row, restricted to the fields consumed by the core
(`user.Name`, `user.Email` feed the gateway customer details). -/
structure User where
  id : Nat
  name : String
  email : String
deriving DecidableEq, Repr

/-- `domain.Subscription` row (the joined `Plan` pointer is carried
separately in `SubWithPlan`, not in the stored row). -/
structure Subscription where
  id : Nat
  userId : Nat
  planId : Nat
  startDate : DateTime
  endDate : DateTime
  status : SubscriptionStatus
  createdAt : DateTime
  deletedAt : Option DateTime
deriving DecidableEq, Repr

/-- `domain.Usage` row. -/
structure Usage where
  id : Nat
  userId : Nat
  feature : FeatureType
  periodMonth : MonthKey
  count : Int
  createdAt : DateTime
  deletedAt : Option DateTime
deriving DecidableEq, Repr

/-- Midtrans webhook notification payload, the fields the handler reads
from the dynamic `map[string]interface{}`; `none` models an absent (or
non-string) field, which Go type assertion turns into `""`. -/
structure WebhookPayload where
  order_id : Option String
  status_code : Option String
  gross_amount : Option String
  signature_key : Option String
  transaction_status : Option String
  fraud_status : Option String
deriving DecidableEq, Repr

/-- `domain.Transaction` row.  `midtransResponse` stores the raw webhook
payload kept for audit (`json.Marshal(payload)`); the response-decoration
pointers `Plan`/`User` attached only for API output are omitted. -/
structure Transaction where
  id : Nat
  userId : Nat
  planId : Nat
  subscriptionId : Option Nat
  orderId : String
  transactionId : Option String
  grossAmount : Rat
  paymentType : Option String
  paymentMethod : Option String
  status : TransactionStatus
  transactionStatus : Option String
  fraudStatus : Option String
  snapToken : Option String
  redirectUrl : Option String
  midtransResponse : Option WebhookPayload
  paidAt : Option DateTime
  expiredAt : Option DateTime
  createdAt : DateTime
  updatedAt : DateTime
  deletedAt : Option DateTime
deriving DecidableEq, Repr

/-- The durable store: one list of rows per table, plus the fresh-id
counter modelling `uuid.New()`. -/
structure DB where
  plans : List Plan
  users : List User
  subscriptions : List Subscription
  usages : List Usage
  transactions : List Transaction
  nextId : Nat
deriving DecidableEq, Repr

/-- Fresh identifier, modelling `uuid.New()`. -/
def DB.freshId (db : DB) : Nat × DB := (db.nextId, { db with nextId := db.nextId + 1 })

/-- internal/service/transaction_service.go `mapMidtransStatus`: the Go
`switch` on the gateway transaction status, with the credit-card fraud
check in the `capture` arm. -/
def mapMidtransStatus (transactionStatus fraudStatus : String) : TransactionStatus :=
  if transactionStatus = "capture" then
    if fraudStatus = "accept" then .success else .pending
  else if transactionStatus = "settlement" then .success
  else if transactionStatus = "pending" then .pending
  else if transactionStatus = "deny" then .failed
  else if transactionStatus = "cancel" then .cancel
  else if transactionStatus = "expire" then .expired
  else if transactionStatus = "refund" ∨ transactionStatus = "partial_refund" then .failed
  else .pending

/-- The `WHERE` clause of part_006 `FindActiveByUserID`:
`user_id = $1 AND status = 'active' AND end_date > $2 AND deleted_at IS NULL`. -/
def Subscription.isActiveAt (s : Subscription) (u : Nat) (now : DateTime) : Bool :=
  decide (s.userId = u) && decide (s.status = SubscriptionStatus.active) &&
    DateTime.ltb now s.endDate && decide (s.deletedAt = none)

/-- `ORDER BY created_at DESC LIMIT 1`: the row with the latest
`created_at` (first such row on ties). -/
def latestByCreatedAt : List Subscription → Option Subscription
  | [] => none
  | s :: rest =>
    match latestByCreatedAt rest with
    | none => some s
    | some t => if DateTime.ltb s.createdAt t.createdAt then some t else some s

/-- A subscription row together with its joined plan, modelling the
`Plan *Plan` pointer the repository attaches (`scanSubscriptionWithPlan`). -/
structure SubWithPlan where
  sub : Subscription
  plan : Option Plan
deriving DecidableEq, Repr

/-- part_006 `FindActiveByUserID`: active-and-unexpired rows of the user,
inner-`JOIN`ed with `plans` on `plan_id`, latest `created_at` first,
`LIMIT 1`; the joined plan is attached to the returned row. -/
def findActiveByUserID (db : DB) (u : Nat) (now : DateTime) : Option SubWithPlan :=
  let rows := db.subscriptions.filter (fun s => s.isActiveAt u now)
  let joined := rows.filter (fun s => (db.plans.find? (fun p => decide (p.id = s.planId))).isSome)
  (latestByCreatedAt joined).map
    (fun s => ⟨s, db.plans.find? (fun p => decide (p.id = s.planId))⟩)

/-- part_006 `Create`: `INSERT INTO subscriptions …`. -/
def insertSubscription (db : DB) (s : Subscription) : DB :=
  { db with subscriptions := db.subscriptions ++ [s] }

/-- part_006 `Update`: `UPDATE subscriptions SET status = $1, end_date = $2
WHERE id = $3 AND deleted_at IS NULL` — only status and end date are
written. -/
def updateSubscription (db : DB) (s : Subscription) : DB :=
  { db with subscriptions := db.subscriptions.map (fun x =>
      if x.id = s.id ∧ x.deletedAt = none then
        { x with status := s.status, endDate := s.endDate }
      else x) }

/-- part_004 `GetCurrentMonthUsage`: `WHERE user_id = $1 AND feature = $2
AND period_month = $3 AND deleted_at IS NULL`, with the period computed
from the current time. -/
def usageFind (db : DB) (u : Nat) (f : FeatureType) (pm : MonthKey) : Option Usage :=
  db.usages.find? (fun x =>
    decide (x.userId = u ∧ x.feature = f ∧ x.periodMonth = pm ∧ x.deletedAt = none))

/-- part_004 `FindOrCreate`: look up the current-month row; if absent,
insert a zero-count row (fresh id) for the given period and return it.
The `ON CONFLICT DO NOTHING` + re-fetch of the Go code is sequentially the
same as inserting and returning the new row. -/
def findOrCreateUsage (db : DB) (u : Nat) (f : FeatureType) (pm : MonthKey)
    (now : DateTime) : Usage × DB :=
  match usageFind db u f (periodMonthOf now) with
  | some x => (x, db)
  | none =>
    let (nid, db1) := db.freshId
    let newU : Usage := ⟨nid, u, f, pm, 0, now, none⟩
    (newU, { db1 with usages := db1.usages ++ [newU] })

/-- part_004 `IncrementCount`: `UPDATE usage SET count = count + 1 WHERE
id = $1 AND deleted_at IS NULL`. -/
def incrementCount (db : DB) (uid : Nat) : DB :=
  { db with usages := db.usages.map (fun x =>
      if x.id = uid ∧ x.deletedAt = none then { x with count := x.count + 1 } else x) }

/-- Outcome of the quota gate: `nil` error, `ErrNoActiveSubscription`, or
`ErrQuotaExceeded`. -/
inductive QuotaResult
  | ok
  | noActiveSubscription
  | quotaExceeded
deriving DecidableEq, Repr

/-- The `switch feature` block of `CheckAndIncrementUsage`: `var maxAllowed
int` stays `0` when the plan limit pointer is `nil`. -/
def maxAllowedFor (plan : Plan) (f : FeatureType) : Int :=
  match f with
  | .resume => match plan.maxResumes with | some n => n | none => 0
  | .atsCheck => match plan.maxATSChecks with | some n => n | none => 0
  | .interview => match plan.maxInterviews with | some n => n | none => 0

/-- Body of `quotaService.CheckAndIncrementUsage` after the
`FindActiveByUserID` call, taking that call's result as an argument:
guard on a `nil` subscription / `nil` joined plan, find-or-create the
current-month usage row, compare against the plan limit, increment on
allow. -/
def checkAndIncrementUsageWithSub (db : DB) (u : Nat) (f : FeatureType) (now : DateTime)
    (found : Option SubWithPlan) : QuotaResult × DB :=
  match found with
  | none => (.noActiveSubscription, db)
  | some swp =>
    match swp.plan with
    | none => (.noActiveSubscription, db)
    | some plan =>
      let pm := periodMonthOf now
      let (usage, db1) := findOrCreateUsage db u f pm now
      let maxAllowed := maxAllowedFor plan f
      if 0 < maxAllowed ∧ maxAllowed ≤ usage.count then (.quotaExceeded, db1)
      else (.ok, incrementCount db1 usage.id)

/-- `quotaService.CheckAndIncrementUsage` (internal/service/auth_service.go):
resolve the active subscription, then run the quota gate on the result. -/
def CheckAndIncrementUsage (db : DB) (u : Nat) (f : FeatureType) (now : DateTime) :
    QuotaResult × DB :=
  checkAndIncrementUsageWithSub db u f now (findActiveByUserID db u now)

/-- `domain.UserQuota` snapshot returned by `GetUserQuota`. -/
structure UserQuota where
  planName : String
  maxResumes : Int
  maxATSChecks : Int
  maxInterviews : Int
  usedResumes : Int
  usedATSChecks : Int
  usedInterviews : Int
deriving DecidableEq, Repr

/-- Body of `quotaService.GetUserQuota` after the `FindActiveByUserID`
call (`none` in the first component models `ErrNoActiveSubscription`):
find-or-create the three current-month usage rows and report plan limits
(0 for a `nil` pointer) and used counts. -/
def getUserQuotaWithSub (db : DB) (u : Nat) (now : DateTime)
    (found : Option SubWithPlan) : Option UserQuota × DB :=
  match found with
  | none => (none, db)
  | some swp =>
    match swp.plan with
    | none => (none, db)
    | some plan =>
      let pm := periodMonthOf now
      let (resumeUsage, db1) := findOrCreateUsage db u .resume pm now
      let (atsUsage, db2) := findOrCreateUsage db1 u .atsCheck pm now
      let (interviewUsage, db3) := findOrCreateUsage db2 u .interview pm now
      (some { planName := plan.displayName
            , maxResumes := plan.maxResumes.getD 0
            , maxATSChecks := plan.maxATSChecks.getD 0
            , maxInterviews := plan.maxInterviews.getD 0
            , usedResumes := resumeUsage.count
            , usedATSChecks := atsUsage.count
            , usedInterviews := interviewUsage.count }, db3)

/-- `quotaService.GetUserQuota` (internal/service/auth_service.go). -/
def GetUserQuota (db : DB) (u : Nat) (now : DateTime) : Option UserQuota × DB :=
  getUserQuotaWithSub db u now (findActiveByUserID db u now)

/-- transactionRepository `FindByOrderID`: `WHERE order_id = $1 AND
deleted_at IS NULL`. -/
def findTxByOrderId (db : DB) (oid : String) : Option Transaction :=
  db.transactions.find? (fun t => decide (t.orderId = oid ∧ t.deletedAt = none))

/-- transactionRepository `Create`: `INSERT INTO transactions …`. -/
def insertTransaction (db : DB) (t : Transaction) : DB :=
  { db with transactions := db.transactions ++ [t] }

/-- transactionRepository `Update`: writes subscription_id,
transaction_id, payment_type, payment_method, status, transaction_status,
fraud_status, snap_token, redirect_url, midtrans_response, paid_at,
expired_at and `updated_at = time.Now()` on the row with the given id
(`deleted_at IS NULL`); user_id, plan_id, order_id, gross_amount and
created_at are never rewritten. -/
def updateTransaction (db : DB) (t : Transaction) (now : DateTime) : DB :=
  { db with transactions := db.transactions.map (fun x =>
      if x.id = t.id ∧ x.deletedAt = none then
        { x with subscriptionId := t.subscriptionId
               , transactionId := t.transactionId
               , paymentType := t.paymentType
               , paymentMethod := t.paymentMethod
               , status := t.status
               , transactionStatus := t.transactionStatus
               , fraudStatus := t.fraudStatus
               , snapToken := t.snapToken
               , redirectUrl := t.redirectUrl
               , midtransResponse := t.midtransResponse
               , paidAt := t.paidAt
               , expiredAt := t.expiredAt
               , updatedAt := now }
      else x) }

/-- planRepository `FindByID`: `WHERE id = $1 AND deleted_at IS NULL`. -/
def planFindByID (db : DB) (pid : Nat) : Option Plan :=
  db.plans.find? (fun p => decide (p.id = pid ∧ p.deletedAt = none))

/-- userRepository `FindByID`: `WHERE id = $1 AND deleted_at IS NULL`
(user soft deletion is not exercised by the core, so only the id filter
is modelled). -/
def userFindByID (db : DB) (uid : Nat) : Option User :=
  db.users.find? (fun u => decide (u.id = uid))

/-- pkg/midtrans `TransactionStatusResponse` fields consumed by the
reconciliation logic. -/
structure StatusResp where
  transactionId : String
  orderId : String
  transactionStatus : String
  fraudStatus : String
  paymentType : String
  grossAmount : String
  statusCode : String
deriving DecidableEq, Repr

/-- pkg/midtrans `ItemDetail`. -/
structure SnapItemDetail where
  id : String
  name : String
  price : Int
  quantity : Int
deriving DecidableEq, Repr

/-- pkg/midtrans `CustomerDetail`. -/
structure SnapCustomer where
  firstName : String
  email : String
deriving DecidableEq, Repr

/-- pkg/midtrans `CreateTransactionRequest` (the Snap session request). -/
structure SnapRequest where
  orderId : String
  grossAmount : Int
  itemDetails : List SnapItemDetail
  customer : SnapCustomer
deriving DecidableEq, Repr

/-- pkg/midtrans Snap session response (token + redirect URL). -/
structure SnapResp where
  token : String
  redirectUrl : String
deriving DecidableEq, Repr

/-- The gateway adapter (pkg/midtrans `Client`) as an external
collaborator: the server key, the SHA-512-hex primitive (`sha512.New` +
`hex.EncodeToString`, treated as an opaque function), the authoritative
status-query endpoint `CheckTransaction` and the Snap session creation
`CreateSnapTransaction`; `none` models a call that returns an error. -/
structure MidtransClient where
  serverKey : String
  sha512hex : String → String
  checkTransaction : String → Option StatusResp
  createSnapTransaction : SnapRequest → Option SnapResp

/-- pkg/midtrans `VerifySignatureKey`: the hex SHA-512 of
`orderId + statusCode + grossAmount + serverKey` compared to the provided
signature. -/
def VerifySignatureKey (c : MidtransClient) (orderID statusCode grossAmount signatureKey : String) : Bool :=
  c.sha512hex (orderID ++ statusCode ++ grossAmount ++ c.serverKey) == signatureKey

instance {ε α : Type} [DecidableEq ε] [DecidableEq α] : DecidableEq (Except ε α) := fun a b =>
  match a, b with
  | .ok x, .ok y =>
    if h : x = y then isTrue (by rw [h]) else isFalse (fun hh => h (Except.ok.inj hh))
  | .error x, .error y =>
    if h : x = y then isTrue (by rw [h]) else isFalse (fun hh => h (Except.error.inj hh))
  | .ok _, .error _ => isFalse (fun hh => Except.noConfusion hh)
  | .error _, .ok _ => isFalse (fun hh => Except.noConfusion hh)

/-- Errors surfaced by the transaction service entry points. -/
inductive TxError
  | missingOrderId
  | invalidSignature
  | transactionNotFound
  | gatewayError
  | planNotAvailable
  | freePlan
  | activeSubscriptionExists
  | userNotFound
  | subscriptionCreateFailed
deriving DecidableEq, Repr

/-- `transactionService.createSubscription`: fetch the plan (error if
absent), duration defaults to 30 days, cancel the currently active
subscription if one is found (errors of that lookup are discarded in Go),
insert the fresh active subscription and return its id. -/
def createSubscription (db : DB) (tx : Transaction) (now : DateTime) :
    Option (Nat × DB) :=
  match planFindByID db tx.planId with
  | none => none
  | some plan =>
    let durationDays : Int := match plan.durationDays with | some dd => dd | none => 30
    let endDate := now.addDays durationDays
    let db1 :=
      match findActiveByUserID db tx.userId now with
      | some swp => updateSubscription db { swp.sub with status := .canceled }
      | none => db
    let (nid, db2) := db1.freshId
    let newSub : Subscription :=
      ⟨nid, tx.userId, tx.planId, now, endDate, .active, now, none⟩
    some (nid, insertSubscription db2 newSub)

/-- `transactionService.HandleWebhook`: extract order id (error when
absent/empty), verify a present signature before anything else, look up
the transaction, no-op when already success/failed, re-query the gateway,
overwrite the gateway-reported fields and the raw payload audit blob, map
the gateway status, on success stamp `paidAt` and create the subscription
when none is attached yet, then persist through the repository update. -/
def handleWebhook (db : DB) (c : MidtransClient) (payload : WebhookPayload)
    (now : DateTime) : DB × Except TxError Unit :=
  let orderID := payload.order_id.getD ""
  if orderID = "" then (db, .error .missingOrderId)
  else
    let statusCode := payload.status_code.getD ""
    let grossAmount := payload.gross_amount.getD ""
    let signatureKey := payload.signature_key.getD ""
    if signatureKey ≠ "" ∧ VerifySignatureKey c orderID statusCode grossAmount signatureKey = false then
      (db, .error .invalidSignature)
    else
      match findTxByOrderId db orderID with
      | none => (db, .error .transactionNotFound)
      | some tx =>
        if tx.status = .success ∨ tx.status = .failed then (db, .ok ())
        else
          match c.checkTransaction orderID with
          | none => (db, .error .gatewayError)
          | some resp =>
            let tx1 := { tx with
              transactionId := some resp.transactionId
              , paymentType := some resp.paymentType
              , transactionStatus := some resp.transactionStatus
              , fraudStatus := some resp.fraudStatus
              , midtransResponse := some payload }
            let newStatus := mapMidtransStatus resp.transactionStatus resp.fraudStatus
            let tx2 := { tx1 with status := newStatus }
            let afterSuccess : Except TxError (Transaction × DB) :=
              if newStatus = .success then
                let tx3 := { tx2 with paidAt := some now }
                if tx3.subscriptionId = none then
                  match createSubscription db tx3 now with
                  | none => .error .subscriptionCreateFailed
                  | some (sid, db1) => .ok ({ tx3 with subscriptionId := some sid }, db1)
                else .ok (tx3, db)
              else .ok (tx2, db)
            match afterSuccess with
            | .error e => (db, .error e)
            | .ok (txF, dbF) => (updateTransaction dbF txF now, .ok ())

/-- `transactionService.CheckTransactionStatus`: the user-triggered poll —
same lookup, same terminal short-circuit (returning the stored row), same
gateway re-query and status mapping; `paidAt` and the subscription are
set only when the new status is success and no subscription is attached;
unlike the webhook path it does not store the raw payload. -/
def checkTransactionStatus (db : DB) (c : MidtransClient) (orderID : String)
    (now : DateTime) : DB × Except TxError Transaction :=
  match findTxByOrderId db orderID with
  | none => (db, .error .transactionNotFound)
  | some tx =>
    if tx.status = .success ∨ tx.status = .failed then (db, .ok tx)
    else
      match c.checkTransaction orderID with
      | none => (db, .error .gatewayError)
      | some resp =>
        let tx1 := { tx with
          transactionId := some resp.transactionId
          , paymentType := some resp.paymentType
          , transactionStatus := some resp.transactionStatus
          , fraudStatus := some resp.fraudStatus }
        let newStatus := mapMidtransStatus resp.transactionStatus resp.fraudStatus
        let tx2 := { tx1 with status := newStatus }
        let afterSuccess : Except TxError (Transaction × DB) :=
          if newStatus = .success ∧ tx2.subscriptionId = none then
            match createSubscription db { tx2 with paidAt := some now } now with
            | none => .error .subscriptionCreateFailed
            | some (sid, db1) =>
              .ok ({ tx2 with paidAt := some now, subscriptionId := some sid }, db1)
          else .ok (tx2, db)
        match afterSuccess with
        | .error e => (db, .error e)
        | .ok (txF, dbF) => (updateTransaction dbF txF now, .ok txF)

/-- `domain.CreateTransactionRequest`: the client request carries the plan
id and nothing else. -/
structure CreateTransactionRequest where
  planId : Nat
deriving DecidableEq, Repr

/-- `domain.TransactionResponse`. -/
structure TransactionResponse where
  transaction : Transaction
  snapToken : String
  redirectUrl : String
deriving DecidableEq, Repr

/-- The composite order id `CAREERLY-{planID}-{userID}-{timestamp}`
(prefixes of the uuids and the millisecond timestamp are abstracted to
decimal renderings at day resolution). -/
def mkOrderId (planId userId : Nat) (now : DateTime) : String :=
  "CAREERLY-" ++ toString planId ++ "-" ++ toString userId ++ "-" ++
    toString now.y ++ "-" ++ toString now.mo ++ "-" ++ toString now.d

/-- `transactionService.CreateTransaction`: fetch the plan from the
catalog (never trusting the client for the price), reject inactive or
free plans, reject when an active subscription for the same plan exists,
fetch the user, build the Snap request with `plan.Price.IntPart()`,
create the gateway session, then insert the pending transaction row
storing the exact plan price, with a 24-hour expiry. -/
def createTransaction (db : DB) (c : MidtransClient) (userId : Nat)
    (req : CreateTransactionRequest) (now : DateTime) :
    DB × Except TxError TransactionResponse :=
  match planFindByID db req.planId with
  | none => (db, .error .planNotAvailable)
  | some plan =>
    if plan.isActive = false then (db, .error .planNotAvailable)
    else if plan.price = 0 then (db, .error .freePlan)
    else if (match findActiveByUserID db userId now with
             | some swp => decide (swp.sub.planId = req.planId)
             | none => false) then (db, .error .activeSubscriptionExists)
    else
      match userFindByID db userId with
      | none => (db, .error .userNotFound)
      | some user =>
        let orderID := mkOrderId plan.id userId now
        let grossAmount := intPart plan.price
        let midtransReq : SnapRequest :=
          { orderId := orderID
          , grossAmount := grossAmount
          , itemDetails := [ { id := toString plan.id, name := plan.displayName
                             , price := grossAmount, quantity := 1 } ]
          , customer := { firstName := user.name, email := user.email } }
        match c.createSnapTransaction midtransReq with
        | none => (db, .error .gatewayError)
        | some snapResp =>
          let expiryTime := now.addDays 1
          let (nid, db1) := db.freshId
          let tx : Transaction :=
            { id := nid, userId := userId, planId := plan.id
            , subscriptionId := none, orderId := orderID, transactionId := none
            , grossAmount := plan.price, paymentType := none, paymentMethod := none
            , status := .pending, transactionStatus := none, fraudStatus := none
            , snapToken := some snapResp.token, redirectUrl := some snapResp.redirectUrl
            , midtransResponse := none, paidAt := none, expiredAt := some expiryTime
            , createdAt := now, updatedAt := now, deletedAt := none }
          (insertTransaction db1 tx,
            .ok { transaction := tx, snapToken := snapResp.token
                , redirectUrl := snapResp.redirectUrl })

/-- The body of `createSubscription` abstracted over the only two
transaction fields it reads (plan id and user id); used to express that
subscription creation is insensitive to the rest of the transaction. -/
def createSubscriptionPU (db : DB) (planId userId : Nat) (now : DateTime) :
    Option (Nat × DB) :=
  match planFindByID db planId with
  | none => none
  | some plan =>
    let durationDays : Int := match plan.durationDays with | some dd => dd | none => 30
    let endDate := now.addDays durationDays
    let db1 :=
      match findActiveByUserID db userId now with
      | some swp => updateSubscription db { swp.sub with status := .canceled }
      | none => db
    let (nid, db2) := db1.freshId
    let newSub : Subscription :=
      ⟨nid, userId, planId, now, endDate, .active, now, none⟩
    some (nid, insertSubscription db2 newSub)

/-- Erase the raw-payload audit blob of a transaction row. -/
def scrubAudit (t : Transaction) : Transaction := { t with midtransResponse := none }

/-- Erase the audit blobs of every transaction row in the store. -/
def scrubDB (db : DB) : DB := { db with transactions := db.transactions.map scrubAudit }

/-- Erase the audit blob and the `paidAt` stamp of a transaction row. -/
def scrubAuditPaid (t : Transaction) : Transaction :=
  { t with midtransResponse := none, paidAt := none }

/-- Erase audit blobs and `paidAt` stamps of every transaction row. -/
def scrubPaidDB (db : DB) : DB :=
  { db with transactions := db.transactions.map scrubAuditPaid }

/-- The stored usage count for a (user, feature, period) key, `0` when no
row exists yet. -/
def usageCount (db : DB) (u : Nat) (f : FeatureType) (pm : MonthKey) : Int :=
  match usageFind db u f pm with
  | some x => x.count
  | none => 0

/-! ### Concrete example world used by witnesses and counterexamples -/

/-- Example plan: 150000, 30 days, 3 resumes, 5 ATS checks, unlimited
interviews. -/
def exPlanPro : Plan :=
  ⟨1, "pro", "Pro", 150000, some 30, some 3, some 5, none, true, ⟨2026, 1, 1⟩, none⟩

/-- Example active subscription of user 7 for `exPlanPro`. -/
def exSub : Subscription :=
  ⟨100, 7, 1, ⟨2026, 10, 1⟩, ⟨2026, 10, 31⟩, .active, ⟨2026, 10, 1⟩, none⟩

/-- Like `exSub` but valid into November. -/
def exSubLong : Subscription :=
  ⟨100, 7, 1, ⟨2026, 10, 1⟩, ⟨2026, 11, 30⟩, .active, ⟨2026, 10, 1⟩, none⟩

/-- Example subscription row of user 7 that is past its end date but
whose stored status still says active. -/
def exSubExpired : Subscription :=
  ⟨100, 7, 1, ⟨2026, 9, 1⟩, ⟨2026, 9, 30⟩, .active, ⟨2026, 9, 1⟩, none⟩

/-- Example usage row of user 7 for October 2026. -/
def exUsage (f : FeatureType) (c : Int) : Usage := ⟨150, 7, f, ⟨2026, 10⟩, c, ⟨2026, 10, 2⟩, none⟩

/-- Example store holding `exPlanPro`, one subscription and given usage
rows. -/
def exDbQ (s : Subscription) (us : List Usage) : DB := ⟨[exPlanPro], [], [s], us, [], 200⟩

/-- Second example plan, purchased while `exPlanPro` is (or was) held. -/
def exPlanB : Plan :=
  ⟨2, "elite", "Elite", 250000, some 30, some 10, some 10, some 10, true, ⟨2026, 1, 1⟩, none⟩

/-- Pending transaction of user 7 buying `exPlanB`. -/
def exTxB : Transaction :=
  ⟨400, 7, 2, none, "ORD-B", none, 250000, none, none, .pending,
    none, none, none, none, none, none, none, ⟨2026, 10, 10⟩, ⟨2026, 10, 10⟩, none⟩

/-- Example gateway whose status endpoint reports settlement for every
order and whose Snap endpoint always succeeds. -/
def exClientSettle : MidtransClient :=
  ⟨"sk", fun s => s ++ "#sha", fun oid =>
      some ⟨"mid-1", oid, "settlement", "", "qris", "250000.00", "200"⟩,
    fun _ => some ⟨"tok", "url"⟩⟩

/-- Store where user 7 holds a stale subscription row (status active,
already past its end date) and a pending transaction for `exPlanB`. -/
def exDbStale : DB := ⟨[exPlanPro, exPlanB], [], [exSubExpired], [], [exTxB], 500⟩

/-- Store where user 7 holds the still-valid `exSub` and a pending
transaction for `exPlanB`. -/
def exDbFresh : DB := ⟨[exPlanPro, exPlanB], [], [exSub], [], [exTxB], 500⟩

/-- Like `exTxB` but with a subscription already attached while the
stored status is still pending (the partial-failure retry situation of
§7). -/
def exTxBSub : Transaction :=
  ⟨400, 7, 2, some 77, "ORD-B", none, 250000, none, none, .pending,
    none, none, none, none, none, none, none, ⟨2026, 10, 10⟩, ⟨2026, 10, 10⟩, none⟩

/-- `exDbStale` with the already-attached-subscription transaction. -/
def exDbStaleSub : DB := ⟨[exPlanPro, exPlanB], [], [exSubExpired], [], [exTxBSub], 500⟩

/-- Webhook payload for ORD-B with no signature. -/
def exPayloadB : WebhookPayload :=
  ⟨some "ORD-B", some "200", some "250000.00", none, some "settlement", none⟩

/-- Example user making purchases. -/
def exUserA : User := ⟨7, "Alice", "a@x.io"⟩

/-- A plan whose decimal price has a fractional part (3/2); nothing in
the plan-administration path forbids this. -/
def exPlanFrac : Plan :=
  ⟨3, "frac", "Frac", ⟨3, 2, by decide, by decide⟩, some 30, none, none, none, true,
    ⟨2026, 1, 1⟩, none⟩

/-- Store holding the fractional-price plan and the purchasing user. -/
def exDbFrac : DB := ⟨[exPlanFrac], [exUserA], [], [], [], 500⟩

/-- Gateway whose session creation succeeds only when asked for amount 1. -/
def exClientAmount1 : MidtransClient :=
  ⟨"sk", fun s => s, fun _ => none,
    fun r => if r.grossAmount = 1 then some ⟨"tok", "url"⟩ else none⟩

/-- Gateway whose session creation always fails. -/
def exClientNoSnap : MidtransClient := ⟨"sk", fun s => s, fun _ => none, fun _ => none⟩

/-- Store for the CreateTransaction witness: the 150000 plan, the user,
no subscriptions. -/
def exDbCT : DB := ⟨[exPlanPro], [exUserA], [], [], [], 500⟩

/-- The pending transaction row `CreateTransaction` inserts in `exDbCT`
for plan 1 on 2026-10-11. -/
def exTxCT : Transaction :=
  ⟨500, 7, 1, none, "CAREERLY-1-7-2026-10-11", none, 150000, none, none, .pending,
    none, none, some "tok", some "url", none, none, some ⟨2026, 10, 12⟩,
    ⟨2026, 10, 11⟩, ⟨2026, 10, 11⟩, none⟩

/-- The response `CreateTransaction` returns in that run. -/
def exRespCT : TransactionResponse := ⟨exTxCT, "tok", "url"⟩

/-- An already-successful transaction (order ORD-P) with its subscription
attached. -/
def exTxPaid : Transaction :=
  ⟨410, 7, 1, some 120, "ORD-P", some "mid-7", 150000, some "qris", none, .success,
    some "settlement", some "", none, none, none, some ⟨2026, 10, 5⟩, none,
    ⟨2026, 10, 4⟩, ⟨2026, 10, 5⟩, none⟩

/-- Store holding the terminal `exTxPaid`. -/
def exDbPaid : DB := ⟨[exPlanPro], [], [exSub], [], [exTxPaid], 600⟩

/-- Webhook payload replaying ORD-P with no signature. -/
def exPayloadPaid : WebhookPayload :=
  ⟨some "ORD-P", some "200", some "150000.00", none, some "settlement", none⟩

/-! ## Theorems -/

theorem usageFind_props {db : DB} {u : Nat} {f : FeatureType} {pm : MonthKey} {x : Usage}
    (h : usageFind db u f pm = some x) :
    x.userId = u ∧ x.feature = f ∧ x.periodMonth = pm ∧ x.deletedAt = none := by
  unfold usageFind at h
  have h2 := List.find?_some h
  simpa using h2

theorem usageFind_incrementCount (db : DB) (u : Nat) (f : FeatureType) (pm : MonthKey)
    (uid : Nat) :
    usageFind (incrementCount db uid) u f pm
      = (usageFind db u f pm).map (fun x =>
          if x.id = uid ∧ x.deletedAt = none then { x with count := x.count + 1 } else x) := by
  unfold usageFind incrementCount
  rw [List.find?_map]
  have hpg : ((fun x : Usage =>
        decide (x.userId = u ∧ x.feature = f ∧ x.periodMonth = pm ∧ x.deletedAt = none)) ∘
      (fun x : Usage =>
        if x.id = uid ∧ x.deletedAt = none then { x with count := x.count + 1 } else x))
      = (fun x : Usage =>
        decide (x.userId = u ∧ x.feature = f ∧ x.periodMonth = pm ∧ x.deletedAt = none)) := by
    funext x
    obtain ⟨xid, xu, xf, xpm, xc, xca, xda⟩ := x
    by_cases h : xid = uid ∧ xda = none
    · simp [h]
    · simp [h]
  rw [hpg]

/-- C1: `mapMidtransStatus` realises exactly the status-mapping table:
capture+accept → success; capture with any other fraud status → pending;
settlement → success; pending → pending; deny → failed; cancel → cancel;
expire → expired; refund and partial_refund → failed; and every gateway
status string outside the table → pending (in particular never success). -/
theorem C1_mapMidtransStatus_table (ts fs : String) :
    mapMidtransStatus "capture" "accept" = .success ∧
    (fs ≠ "accept" → mapMidtransStatus "capture" fs = .pending) ∧
    mapMidtransStatus "settlement" fs = .success ∧
    mapMidtransStatus "pending" fs = .pending ∧
    mapMidtransStatus "deny" fs = .failed ∧
    mapMidtransStatus "cancel" fs = .cancel ∧
    mapMidtransStatus "expire" fs = .expired ∧
    mapMidtransStatus "refund" fs = .failed ∧
    mapMidtransStatus "partial_refund" fs = .failed ∧
    (ts ≠ "capture" → ts ≠ "settlement" → ts ≠ "pending" → ts ≠ "deny" →
      ts ≠ "cancel" → ts ≠ "expire" → ts ≠ "refund" → ts ≠ "partial_refund" →
      mapMidtransStatus ts fs = .pending) := by
  refine ⟨rfl, ?_, rfl, rfl, rfl, rfl, rfl, rfl, rfl, ?_⟩
  · intro h
    simp [mapMidtransStatus, h]
  · intro h1 h2 h3 h4 h5 h6 h7 h8
    simp [mapMidtransStatus, h1, h2, h3, h4, h5, h6, h7, h8]

/-- C1 witness: the table rows and the unknown-status row evaluated at
concrete strings. -/
theorem C1_mapMidtransStatus_table_witness :
    mapMidtransStatus "capture" "challenge" = .pending ∧
    mapMidtransStatus "chargeback" "accept" = .pending := by
  obtain ⟨-, h2, -, -, -, -, -, -, -, h10⟩ :=
    C1_mapMidtransStatus_table "chargeback" "challenge"
  exact ⟨h2 (by decide), h10 (by decide) (by decide) (by decide) (by decide)
    (by decide) (by decide) (by decide) (by decide)⟩

/-- C2: for a user with an active subscription (with joined plan): with a
positive limit n for the feature, the call returns Ok and increments the
(user, feature, current-month) count by exactly one while the count is
below n, and returns QuotaExceeded leaving the store untouched once the
count is at least n; a nil-or-zero limit never yields QuotaExceeded; and
a month with no usage row yet starts from a fresh zero count (first call
Ok, count becomes 1). -/
theorem C2_CheckAndIncrementUsage_quota (db : DB) (u : Nat) (f : FeatureType)
    (now : DateTime) (swp : SubWithPlan) (plan : Plan) (n : Int)
    (hfa : findActiveByUserID db u now = some swp)
    (hplan : swp.plan = some plan)
    (hn : maxAllowedFor plan f = n) :
    (0 < n → usageCount db u f (periodMonthOf now) < n →
      (CheckAndIncrementUsage db u f now).1 = .ok ∧
      usageCount (CheckAndIncrementUsage db u f now).2 u f (periodMonthOf now)
        = usageCount db u f (periodMonthOf now) + 1) ∧
    (0 < n → n ≤ usageCount db u f (periodMonthOf now) →
      CheckAndIncrementUsage db u f now = (.quotaExceeded, db)) ∧
    (n = 0 → (CheckAndIncrementUsage db u f now).1 = .ok) ∧
    (usageFind db u f (periodMonthOf now) = none →
      (CheckAndIncrementUsage db u f now).1 = .ok ∧
      usageCount (CheckAndIncrementUsage db u f now).2 u f (periodMonthOf now) = 1) := by
  have key : CheckAndIncrementUsage db u f now
      = checkAndIncrementUsageWithSub db u f now (some swp) := by
    rw [CheckAndIncrementUsage, hfa]
  cases husage : usageFind db u f (periodMonthOf now) with
  | some x =>
    obtain ⟨hxu, hxf, hxpm, hxd⟩ := usageFind_props husage
    have hcnt : usageCount db u f (periodMonthOf now) = x.count := by
      simp [usageCount, husage]
    have hrun : CheckAndIncrementUsage db u f now
        = (if 0 < maxAllowedFor plan f ∧ maxAllowedFor plan f ≤ x.count
           then (QuotaResult.quotaExceeded, db)
           else (QuotaResult.ok, incrementCount db x.id)) := by
      rw [key]
      simp only [checkAndIncrementUsageWithSub, hplan, findOrCreateUsage, husage]
    have hinc2 : usageFind (incrementCount db x.id) u f (periodMonthOf now)
        = some { x with count := x.count + 1 } := by
      rw [usageFind_incrementCount, husage, Option.map_some',
        if_pos (⟨rfl, hxd⟩ : x.id = x.id ∧ x.deletedAt = none)]
    have hafter : usageCount (incrementCount db x.id) u f (periodMonthOf now)
        = x.count + 1 := by
      obtain ⟨xid, xu, xf, xpm, xc, xca, xda⟩ := x
      simp [usageCount, hinc2]
    refine ⟨?_, ?_, ?_, ?_⟩
    · intro hpos hlt
      rw [hcnt] at hlt
      have hcond : ¬ (0 < maxAllowedFor plan f ∧ maxAllowedFor plan f ≤ x.count) := by
        rw [hn]; omega
      rw [hrun, if_neg hcond]
      exact ⟨rfl, by rw [hafter, hcnt]⟩
    · intro hpos hge
      rw [hcnt] at hge
      rw [hrun, if_pos (by rw [hn]; exact ⟨hpos, hge⟩)]
    · intro h0
      rw [hrun, if_neg (by rw [hn, h0]; omega)]
    · intro hnone
      simp at hnone
  | none =>
    have hcnt : usageCount db u f (periodMonthOf now) = 0 := by
      simp [usageCount, husage]
    have hfind0 : List.find? (fun x : Usage =>
        decide (x.userId = u ∧ x.feature = f ∧ x.periodMonth = periodMonthOf now ∧
          x.deletedAt = none)) db.usages = none := husage
    have hrun : CheckAndIncrementUsage db u f now
        = (QuotaResult.ok,
           incrementCount
             { db with nextId := db.nextId + 1
                     , usages := db.usages ++
                         [⟨db.nextId, u, f, periodMonthOf now, 0, now, none⟩] }
             db.nextId) := by
      rw [key]
      simp only [checkAndIncrementUsageWithSub, hplan, findOrCreateUsage, husage, DB.freshId]
      rw [if_neg (by omega)]
    have hfind1 : usageFind
        { db with nextId := db.nextId + 1
                , usages := db.usages ++ [⟨db.nextId, u, f, periodMonthOf now, 0, now, none⟩] }
        u f (periodMonthOf now)
        = some ⟨db.nextId, u, f, periodMonthOf now, 0, now, none⟩ := by
      unfold usageFind
      simp only [List.find?_append, hfind0, Option.none_or]
      simp
    have hafter : usageCount (CheckAndIncrementUsage db u f now).2 u f (periodMonthOf now)
        = 1 := by
      rw [hrun]
      have hinc := usageFind_incrementCount
        { db with nextId := db.nextId + 1
                , usages := db.usages ++ [⟨db.nextId, u, f, periodMonthOf now, 0, now, none⟩] }
        u f (periodMonthOf now) db.nextId
      rw [hfind1] at hinc
      simp only [Option.map_some'] at hinc
      rw [usageCount, hinc]
      simp
    refine ⟨?_, ?_, ?_, ?_⟩
    · intro hpos hlt
      exact ⟨by rw [hrun], by rw [hafter, hcnt]; omega⟩
    · intro hpos hge
      rw [hcnt] at hge
      omega
    · intro h0
      rw [hrun]
    · intro hnone
      exact ⟨by rw [hrun], hafter⟩

/-- C2 witness: a plan capping resumes at 3: with the count at 2 the call
allows and moves the count to 3; with the count at 3 it denies and leaves
the store unchanged; a nil interview limit allows at count 999; and a new
month starts fresh at count 1. -/
theorem C2_CheckAndIncrementUsage_quota_witness :
    (CheckAndIncrementUsage (exDbQ exSub [exUsage .resume 2]) 7 .resume ⟨2026, 10, 11⟩).1
        = .ok ∧
    usageCount (CheckAndIncrementUsage (exDbQ exSub [exUsage .resume 2])
        7 .resume ⟨2026, 10, 11⟩).2 7 .resume ⟨2026, 10⟩ = 3 ∧
    CheckAndIncrementUsage (exDbQ exSub [exUsage .resume 3]) 7 .resume ⟨2026, 10, 11⟩
      = (.quotaExceeded, exDbQ exSub [exUsage .resume 3]) ∧
    (CheckAndIncrementUsage (exDbQ exSubLong [exUsage .interview 999])
        7 .interview ⟨2026, 10, 11⟩).1 = .ok ∧
    ((CheckAndIncrementUsage (exDbQ exSubLong [exUsage .resume 3]) 7 .resume ⟨2026, 11, 3⟩).1
        = .ok ∧
      usageCount (CheckAndIncrementUsage (exDbQ exSubLong [exUsage .resume 3])
        7 .resume ⟨2026, 11, 3⟩).2 7 .resume ⟨2026, 11⟩ = 1) := by
  refine ⟨?_, ?_, ?_, ?_, ?_⟩
  · exact ((C2_CheckAndIncrementUsage_quota (exDbQ exSub [exUsage .resume 2]) 7 .resume
      ⟨2026, 10, 11⟩ ⟨exSub, some exPlanPro⟩ exPlanPro 3
      (by decide) rfl (by decide)).1 (by decide) (by decide)).1
  · exact ((C2_CheckAndIncrementUsage_quota (exDbQ exSub [exUsage .resume 2]) 7 .resume
      ⟨2026, 10, 11⟩ ⟨exSub, some exPlanPro⟩ exPlanPro 3
      (by decide) rfl (by decide)).1 (by decide) (by decide)).2
  · exact (C2_CheckAndIncrementUsage_quota (exDbQ exSub [exUsage .resume 3]) 7 .resume
      ⟨2026, 10, 11⟩ ⟨exSub, some exPlanPro⟩ exPlanPro 3
      (by decide) rfl (by decide)).2.1 (by decide) (by decide)
  · exact (C2_CheckAndIncrementUsage_quota (exDbQ exSubLong [exUsage .interview 999]) 7
      .interview ⟨2026, 10, 11⟩ ⟨exSubLong, some exPlanPro⟩ exPlanPro 0
      (by decide) rfl (by decide)).2.2.1 rfl
  · exact (C2_CheckAndIncrementUsage_quota (exDbQ exSubLong [exUsage .resume 3]) 7 .resume
      ⟨2026, 11, 3⟩ ⟨exSubLong, some exPlanPro⟩ exPlanPro 3
      (by decide) rfl (by decide)).2.2.2 (by decide)

/-- C9: when every status=active subscription row of a user has an end
date not after now, the active-subscription lookup (which filters
`status = active AND end_date > now`) returns nothing, and the quota gate
returns NoActiveSubscription leaving the store untouched — even though
the stored status of such rows still says active. -/
theorem C9_expired_rows_grant_no_quota (db : DB) (u : Nat) (f : FeatureType) (now : DateTime)
    (h : ∀ s ∈ db.subscriptions, s.userId = u → s.status = .active →
      DateTime.ltb now s.endDate = false) :
    findActiveByUserID db u now = none ∧
    CheckAndIncrementUsage db u f now = (.noActiveSubscription, db) := by
  have hfil : db.subscriptions.filter (fun s => s.isActiveAt u now) = [] := by
    rw [List.filter_eq_nil_iff]
    intro s hs hp
    simp only [Subscription.isActiveAt, Bool.and_eq_true, decide_eq_true_eq] at hp
    obtain ⟨⟨⟨h1, h2⟩, h3⟩, h4⟩ := hp
    simp [h s hs h1 h2] at h3
  have hfa : findActiveByUserID db u now = none := by
    simp [findActiveByUserID, hfil, latestByCreatedAt]
  exact ⟨hfa, by rw [CheckAndIncrementUsage, hfa]; rfl⟩

/-- C9 witness: a subscription that expired 2026-09-30 observed on
2026-10-11 yields no active subscription and a NoActiveSubscription
denial. -/
theorem C9_expired_rows_grant_no_quota_witness :
    findActiveByUserID (exDbQ exSubExpired []) 7 ⟨2026, 10, 11⟩ = none ∧
    CheckAndIncrementUsage (exDbQ exSubExpired []) 7 .resume ⟨2026, 10, 11⟩
      = (.noActiveSubscription, exDbQ exSubExpired []) :=
  C9_expired_rows_grant_no_quota (exDbQ exSubExpired []) 7 .resume ⟨2026, 10, 11⟩ (by decide)

/-- C10: when the active-subscription lookup succeeds but the returned
row carries no joined plan, both the quota gate and the quota snapshot
return the NoActiveSubscription outcome with the store untouched — no
crash, and the feature is not treated as unlimited. -/
theorem C10_nil_joined_plan_guard (db : DB) (u : Nat) (f : FeatureType) (now : DateTime)
    (sub : Subscription) :
    checkAndIncrementUsageWithSub db u f now (some ⟨sub, none⟩)
      = (.noActiveSubscription, db) ∧
    getUserQuotaWithSub db u now (some ⟨sub, none⟩) = (none, db) :=
  ⟨rfl, rfl⟩

theorem latestByCreatedAt_mem : ∀ {l : List Subscription} {s : Subscription},
    latestByCreatedAt l = some s → s ∈ l := by
  intro l
  induction l with
  | nil => intro s h; cases h
  | cons a t ih =>
    intro s h
    rw [latestByCreatedAt] at h
    cases hlt : latestByCreatedAt t with
    | none =>
      simp only [hlt, Option.some.injEq] at h
      subst h
      exact List.mem_cons_self a t
    | some b =>
      simp only [hlt] at h
      by_cases hc : DateTime.ltb a.createdAt b.createdAt = true
      · rw [if_pos hc, Option.some.injEq] at h
        subst h
        exact List.mem_cons_of_mem a (ih hlt)
      · rw [if_neg hc, Option.some.injEq] at h
        subst h
        exact List.mem_cons_self a t

theorem findActive_sound {db : DB} {u : Nat} {now : DateTime} {sub : Subscription}
    {p? : Option Plan} (h : findActiveByUserID db u now = some ⟨sub, p?⟩) :
    sub ∈ db.subscriptions ∧ sub.isActiveAt u now = true := by
  unfold findActiveByUserID at h
  rw [Option.map_eq_some'] at h
  obtain ⟨s, hs, heq⟩ := h
  have hsub : s = sub := by
    injection heq with h1 h2
  subst hsub
  have hmem := latestByCreatedAt_mem hs
  have hmem2 := (List.mem_filter.mp hmem).1
  exact ⟨(List.mem_filter.mp hmem2).1, (List.mem_filter.mp hmem2).2⟩

theorem isActiveAt_fields {s : Subscription} {u : Nat} {now : DateTime}
    (h : s.isActiveAt u now = true) :
    s.userId = u ∧ s.status = .active ∧ DateTime.ltb now s.endDate = true ∧
      s.deletedAt = none := by
  simp only [Subscription.isActiveAt, Bool.and_eq_true, decide_eq_true_eq] at h
  exact ⟨h.1.1.1, h.1.1.2, h.1.2, h.2⟩

/-- C3 counterexample: user 7 holds a stored status=active subscription
row that is already past its end date when payment for plan B completes.
The reconciliation finds no operatively active subscription (the lookup
filters `end_date > now`), cancels nothing, and inserts the new active
row: the store ends with two rows of user 7 whose status is active, and
the old row's status is not canceled — refuting both "at most one
subscription with status=active per user" and "the plan A subscription's
status is canceled" as stated. -/
theorem C3_supersession_counterexample :
    ((checkTransactionStatus exDbStale exClientSettle "ORD-B" ⟨2026, 10, 11⟩).1.subscriptions.map
        (fun s => (s.id, s.userId, s.status)))
      = [(100, 7, .active), (500, 7, .active)] ∧
    ((checkTransactionStatus exDbStale exClientSettle "ORD-B" ⟨2026, 10, 11⟩).1.subscriptions.filter
        (fun s => decide (s.userId = 7 ∧ s.status = SubscriptionStatus.active))).length = 2 := by
  constructor
  · decide
  · decide

/-- C3 amended: provided the user has at most one operatively active
subscription row (status=active AND endDate>now) — the invariant the code
maintains — and the purchased plan exists with an end date landing after
now, `createSubscription` flips that row to canceled, inserts the new
active row, and afterwards the new row is the single operatively active
subscription of the user; a stored status=active row already past its end
date is not touched and may keep its stale status. -/
theorem C3_supersession_amended (db : DB) (tx : Transaction) (now : DateTime)
    (oldSub : Subscription) (p? : Option Plan) (plan : Plan)
    (hplan : planFindByID db tx.planId = some plan)
    (hfa : findActiveByUserID db tx.userId now = some ⟨oldSub, p?⟩)
    (huniq : ∀ s ∈ db.subscriptions, s.isActiveAt tx.userId now = true → s = oldSub)
    (hend : DateTime.ltb now (now.addDays (match plan.durationDays with
      | some dd => dd | none => 30)) = true) :
    createSubscription db tx now
      = some (db.nextId,
          insertSubscription
            { updateSubscription db { oldSub with status := .canceled } with
                nextId := db.nextId + 1 }
            ⟨db.nextId, tx.userId, tx.planId, now,
              now.addDays (match plan.durationDays with | some dd => dd | none => 30),
              .active, now, none⟩) ∧
    ((insertSubscription
        { updateSubscription db { oldSub with status := .canceled } with
            nextId := db.nextId + 1 }
        ⟨db.nextId, tx.userId, tx.planId, now,
          now.addDays (match plan.durationDays with | some dd => dd | none => 30),
          .active, now, none⟩).subscriptions.filter
      (fun s => s.isActiveAt tx.userId now))
      = [⟨db.nextId, tx.userId, tx.planId, now,
          now.addDays (match plan.durationDays with | some dd => dd | none => 30),
          .active, now, none⟩] ∧
    { oldSub with status := SubscriptionStatus.canceled }
      ∈ (insertSubscription
          { updateSubscription db { oldSub with status := .canceled } with
              nextId := db.nextId + 1 }
          ⟨db.nextId, tx.userId, tx.planId, now,
            now.addDays (match plan.durationDays with | some dd => dd | none => 30),
            .active, now, none⟩).subscriptions := by
  obtain ⟨hmem, hact⟩ := findActive_sound hfa
  obtain ⟨hou, host, holt, hod⟩ := isActiveAt_fields hact
  constructor
  · rw [createSubscription, hplan, hfa]
    rfl
  constructor
  · rw [insertSubscription]
    show List.filter _ ((updateSubscription db { oldSub with status := .canceled }).subscriptions ++ _) = _
    rw [updateSubscription, List.filter_append]
    have hleft : List.filter (fun s => s.isActiveAt tx.userId now)
        (db.subscriptions.map (fun x =>
          if x.id = oldSub.id ∧ x.deletedAt = none then
            { x with status := SubscriptionStatus.canceled, endDate := oldSub.endDate }
          else x)) = [] := by
      rw [List.filter_eq_nil_iff]
      intro y hy hp
      obtain ⟨x, hx, rfl⟩ := List.mem_map.mp hy
      by_cases hcond : x.id = oldSub.id ∧ x.deletedAt = none
      · rw [if_pos hcond] at hp
        obtain ⟨xid, xu, xp, xs, xe, xst, xc, xd⟩ := x
        simp [Subscription.isActiveAt] at hp
      · rw [if_neg hcond] at hp
        have hxold := huniq x hx hp
        subst hxold
        exact hcond ⟨rfl, hod⟩
    rw [hleft, List.nil_append]
    have : Subscription.isActiveAt
        ⟨db.nextId, tx.userId, tx.planId, now,
          now.addDays (match plan.durationDays with | some dd => dd | none => 30),
          .active, now, none⟩ tx.userId now = true := by
      simp [Subscription.isActiveAt, hend]
    simp [this]
  · rw [insertSubscription]
    show _ ∈ (updateSubscription db { oldSub with status := .canceled }).subscriptions ++ _
    refine List.mem_append_left _ ?_
    rw [updateSubscription]
    refine List.mem_map.mpr ⟨oldSub, hmem, ?_⟩
    rw [if_pos (⟨rfl, hod⟩ : oldSub.id = oldSub.id ∧ oldSub.deletedAt = none)]

/-- C3 amended witness: user 7 holds the unexpired `exSub` for plan 1 and
completes payment for plan 2 on 2026-10-11: the old row is flipped to
canceled, the new row (id 500, plan 2, valid to 2026-11-10) is inserted,
and it is the single operatively active subscription afterwards. -/
theorem C3_supersession_amended_witness :
    createSubscription exDbFresh exTxB ⟨2026, 10, 11⟩
      = some (500, insertSubscription
          { updateSubscription exDbFresh { exSub with status := SubscriptionStatus.canceled } with
              nextId := 501 }
          ⟨500, 7, 2, ⟨2026, 10, 11⟩, ⟨2026, 11, 10⟩, .active, ⟨2026, 10, 11⟩, none⟩) ∧
    ((insertSubscription
        { updateSubscription exDbFresh { exSub with status := SubscriptionStatus.canceled } with
            nextId := 501 }
        ⟨500, 7, 2, ⟨2026, 10, 11⟩, ⟨2026, 11, 10⟩, .active, ⟨2026, 10, 11⟩, none⟩).subscriptions.filter
      (fun s => s.isActiveAt 7 ⟨2026, 10, 11⟩))
      = [⟨500, 7, 2, ⟨2026, 10, 11⟩, ⟨2026, 11, 10⟩, .active, ⟨2026, 10, 11⟩, none⟩] ∧
    { exSub with status := SubscriptionStatus.canceled }
      ∈ (insertSubscription
          { updateSubscription exDbFresh { exSub with status := SubscriptionStatus.canceled } with
              nextId := 501 }
          ⟨500, 7, 2, ⟨2026, 10, 11⟩, ⟨2026, 11, 10⟩, .active, ⟨2026, 10, 11⟩, none⟩).subscriptions :=
  C3_supersession_amended exDbFresh exTxB ⟨2026, 10, 11⟩ exSub (some exPlanPro) exPlanB
    (by decide) (by decide) (by decide) (by decide)

/-- C4: a transaction already in a terminal stored state (success or
failed) makes both reconciliation entry points side-effect-free: the
store is returned unchanged (for any webhook payload naming that order,
whatever its signature), the webhook acknowledges with no error whenever
the signature is absent or valid, and the poll returns the stored row
as-is; since the result is determined without consulting the gateway
(the equations below hold for every `MidtransClient`), replaying the
same payload any number of times leaves the store — its subscriptions
and the transaction's subscriptionId — exactly as after the first
application. -/
theorem C4_terminal_short_circuit (db : DB) (c : MidtransClient) (payload : WebhookPayload)
    (oid : String) (tx : Transaction) (now : DateTime)
    (hord : payload.order_id.getD "" = oid) (hne : oid ≠ "")
    (hfind : findTxByOrderId db oid = some tx)
    (hterm : tx.status = .success ∨ tx.status = .failed) :
    (handleWebhook db c payload now).1 = db ∧
    ((payload.signature_key.getD "" = "" ∨
        VerifySignatureKey c oid (payload.status_code.getD "") (payload.gross_amount.getD "")
          (payload.signature_key.getD "") = true) →
      handleWebhook db c payload now = (db, .ok ())) ∧
    checkTransactionStatus db c oid now = (db, .ok tx) := by
  have hpoll : checkTransactionStatus db c oid now = (db, .ok tx) := by
    rw [checkTransactionStatus]
    simp only [hfind]
    rw [if_pos hterm]
  have hmain : handleWebhook db c payload now =
      (if payload.signature_key.getD "" ≠ "" ∧
          VerifySignatureKey c oid (payload.status_code.getD "") (payload.gross_amount.getD "")
            (payload.signature_key.getD "") = false
       then (db, .error .invalidSignature)
       else (db, .ok ())) := by
    rw [handleWebhook]
    simp only [hord]
    rw [if_neg hne]
    by_cases hsig : payload.signature_key.getD "" ≠ "" ∧
        VerifySignatureKey c oid (payload.status_code.getD "") (payload.gross_amount.getD "")
          (payload.signature_key.getD "") = false
    · rw [if_pos hsig, if_pos hsig]
    · rw [if_neg hsig, if_neg hsig]
      simp only [hfind]
      rw [if_pos hterm]
  refine ⟨?_, ?_, hpoll⟩
  · rw [hmain]
    by_cases hsig : payload.signature_key.getD "" ≠ "" ∧
        VerifySignatureKey c oid (payload.status_code.getD "") (payload.gross_amount.getD "")
          (payload.signature_key.getD "") = false
    · rw [if_pos hsig]
    · rw [if_neg hsig]
  · intro hok
    rw [hmain, if_neg ?_]
    intro hsig
    rcases hok with hempty | hvalid
    · exact hsig.1 hempty
    · rw [hvalid] at hsig
      cases hsig.2


/-- C4 witness: replaying a settlement webhook for the already-success
ORD-P changes nothing and acknowledges; the poll returns the stored row. -/
theorem C4_terminal_short_circuit_witness :
    (handleWebhook exDbPaid exClientSettle exPayloadPaid ⟨2026, 10, 11⟩).1 = exDbPaid ∧
    handleWebhook exDbPaid exClientSettle exPayloadPaid ⟨2026, 10, 11⟩ = (exDbPaid, .ok ()) ∧
    checkTransactionStatus exDbPaid exClientSettle "ORD-P" ⟨2026, 10, 11⟩
      = (exDbPaid, .ok exTxPaid) := by
  obtain ⟨h1, h2, h3⟩ := C4_terminal_short_circuit exDbPaid exClientSettle exPayloadPaid
    "ORD-P" exTxPaid ⟨2026, 10, 11⟩ (by decide) (by decide) (by decide) (by decide)
  exact ⟨h1, h2 (Or.inl (by decide)), h3⟩



/-- Helper for C5: whatever path the webhook takes, a payload whose
signature field is absent or empty is never rejected with
InvalidSignature (the guard fires only on a present signature). -/
theorem handleWebhook_emptySig_no_sig_reject (db : DB) (c : MidtransClient)
    (p2 : WebhookPayload) (now : DateTime) (h2 : p2.signature_key.getD "" = "") :
    (handleWebhook db c p2 now).2 ≠ .error .invalidSignature := by
  rw [handleWebhook]
  by_cases ho : p2.order_id.getD "" = ""
  · rw [if_pos ho]
    simp
  · rw [if_neg ho]
    rw [if_neg (fun hsig => hsig.1 h2)]
    cases hf : findTxByOrderId db (p2.order_id.getD "") with
    | none => simp
    | some tx =>
      simp only
      by_cases ht : tx.status = .success ∨ tx.status = .failed
      · rw [if_pos ht]
        simp
      · rw [if_neg ht]
        cases hg : c.checkTransaction (p2.order_id.getD "") with
        | none => simp
        | some resp =>
          simp only
          split
          next e he =>
            split at he
            · split at he
              · split at he
                · injection he with he
                  subst he
                  simp
                · simp at he
              · simp at he
            · simp at he
          next pr hok => simp

/-- C5: a webhook payload with a non-empty signature that does not equal
the SHA-512 hex of orderId+statusCode+grossAmount+serverKey is rejected
with InvalidSignature before the transaction is even looked up — the
store (quantified over arbitrary contents) is returned unchanged; and a
payload with an absent or empty signature is never rejected on signature
grounds. -/
theorem C5_signature_rejection (db : DB) (c : MidtransClient) (payload : WebhookPayload)
    (now : DateTime) (oid : String)
    (hord : payload.order_id.getD "" = oid) (hne : oid ≠ "")
    (hsig : payload.signature_key.getD "" ≠ "")
    (hbad : payload.signature_key.getD ""
      ≠ c.sha512hex (oid ++ payload.status_code.getD "" ++ payload.gross_amount.getD ""
          ++ c.serverKey)) :
    handleWebhook db c payload now = (db, .error .invalidSignature) ∧
    (∀ p2 : WebhookPayload, p2.signature_key.getD "" = "" →
      (handleWebhook db c p2 now).2 ≠ .error .invalidSignature) := by
  refine ⟨?_, fun p2 h2 => handleWebhook_emptySig_no_sig_reject db c p2 now h2⟩
  have hv : VerifySignatureKey c oid (payload.status_code.getD "")
      (payload.gross_amount.getD "") (payload.signature_key.getD "") = false := by
    rw [VerifySignatureKey]
    exact beq_eq_false_iff_ne.mpr (fun h => hbad h.symm)
  rw [handleWebhook]
  simp only [hord]
  rw [if_neg hne, if_pos (And.intro hsig hv)]

/-- C5 witness: a tampered signature on an ORD-B payload is rejected with
InvalidSignature and the store is unchanged; dropping the signature is
not rejected on signature grounds. -/
theorem C5_signature_rejection_witness :
    handleWebhook exDbStale exClientSettle
        ⟨some "ORD-B", some "200", some "250000.00", some "bogus", some "settlement", none⟩
        ⟨2026, 10, 11⟩
      = (exDbStale, .error .invalidSignature) ∧
    (handleWebhook exDbStale exClientSettle
        ⟨some "ORD-B", some "200", some "250000.00", none, some "settlement", none⟩
        ⟨2026, 10, 11⟩).2 ≠ .error .invalidSignature := by
  obtain ⟨h1, h2⟩ := C5_signature_rejection exDbStale exClientSettle
    ⟨some "ORD-B", some "200", some "250000.00", some "bogus", some "settlement", none⟩
    ⟨2026, 10, 11⟩ "ORD-B" (by decide) (by decide) (by decide) (by decide)
  exact ⟨h1, h2 ⟨some "ORD-B", some "200", some "250000.00", none, some "settlement", none⟩
    (by decide)⟩

theorem scrubDB_updateTransaction (db : DB) (now : DateTime) (t1 t2 : Transaction)
    (hsc : scrubAudit t1 = scrubAudit t2) :
    scrubDB (updateTransaction db t1 now) = scrubDB (updateTransaction db t2 now) := by
  obtain ⟨a1, b1, c1, d1, e1, f1, g1, h1, i1, j1, k1, l1, m1, n1, o1, p1, q1, r1, s1, u1⟩ := t1
  obtain ⟨a2, b2, c2, d2, e2, f2, g2, h2, i2, j2, k2, l2, m2, n2, o2, p2, q2, r2, s2, u2⟩ := t2
  simp only [scrubAudit] at hsc
  injection hsc with hA hB hC hD hE hF hG hH hI hJ hK hL hM hN hO hP hQ hR hS hU
  rw [hA, hB, hC, hD, hE, hF, hG, hH, hI, hJ, hK, hL, hM, hN, hP, hQ, hR, hS, hU]
  unfold scrubDB updateTransaction
  congr 1
  rw [List.map_map, List.map_map]
  apply List.map_congr_left
  intro x _
  simp only [Function.comp]
  by_cases hx : x.id = a2 ∧ x.deletedAt = none
  · rw [if_pos hx, if_pos hx]
    obtain ⟨xa, xb, xc, xd, xe, xf, xg, xh, xi, xj, xk, xl, xm, xn, xo, xp, xq, xr, xs, xt⟩ := x
    simp [scrubAudit]
  · rw [if_neg hx, if_neg hx]


theorem createSubscription_proj (db : DB) (t : Transaction) (now : DateTime) :
    createSubscription db t now = createSubscriptionPU db t.planId t.userId now := rfl

/-- C7: the status the webhook writes is computed solely from the
gateway's authoritative status-query response, never from the payload's
own transaction_status/fraud_status fields: two payloads that agree on
order_id, status_code, gross_amount and signature_key (differing only in
their status fields) produce the same outcome and — up to the stored raw
audit blob, which records the payload verbatim — the same store: same
transaction status, same subscriptionId, same subscriptions. -/
theorem C7_webhook_ignores_payload_status (db : DB) (c : MidtransClient)
    (p1 p2 : WebhookPayload) (now : DateTime)
    (h1 : p1.order_id = p2.order_id) (h2 : p1.status_code = p2.status_code)
    (h3 : p1.gross_amount = p2.gross_amount) (h4 : p1.signature_key = p2.signature_key) :
    (handleWebhook db c p1 now).2 = (handleWebhook db c p2 now).2 ∧
    scrubDB (handleWebhook db c p1 now).1 = scrubDB (handleWebhook db c p2 now).1 := by
  simp only [handleWebhook, h1, h2, h3, h4, createSubscription_proj]
  by_cases ho : p2.order_id.getD "" = ""
  · rw [if_pos ho, if_pos ho]
    exact ⟨by trivial, by trivial⟩
  · rw [if_neg ho, if_neg ho]
    by_cases hsig : p2.signature_key.getD "" ≠ "" ∧
        VerifySignatureKey c (p2.order_id.getD "") (p2.status_code.getD "")
          (p2.gross_amount.getD "") (p2.signature_key.getD "") = false
    · rw [if_pos hsig, if_pos hsig]
      exact ⟨by trivial, by trivial⟩
    · rw [if_neg hsig, if_neg hsig]
      cases hf : findTxByOrderId db (p2.order_id.getD "") with
      | none =>
        simp only [hf]
        exact ⟨by trivial, by trivial⟩
      | some tx =>
        simp only [hf]
        by_cases ht : tx.status = .success ∨ tx.status = .failed
        · rw [if_pos ht, if_pos ht]
          exact ⟨by trivial, by trivial⟩
        · rw [if_neg ht, if_neg ht]
          cases hg : c.checkTransaction (p2.order_id.getD "") with
          | none =>
            simp only [hg]
            exact ⟨by trivial, by trivial⟩
          | some resp =>
            simp only [hg]
            by_cases hsucc : mapMidtransStatus resp.transactionStatus resp.fraudStatus
                = TransactionStatus.success
            · rw [if_pos hsucc, if_pos hsucc]
              by_cases hsub : tx.subscriptionId = none
              · rw [if_pos hsub, if_pos hsub]
                cases hcs : createSubscriptionPU db tx.planId tx.userId now with
                | none =>
                  simp only [hcs]
                  exact ⟨by trivial, by trivial⟩
                | some pr =>
                  obtain ⟨sid, db1⟩ := pr
                  simp only [hcs]
                  exact ⟨by trivial, scrubDB_updateTransaction db1 now _ _ rfl⟩
              · rw [if_neg hsub, if_neg hsub]
                exact ⟨by trivial, scrubDB_updateTransaction db now _ _ rfl⟩
            · rw [if_neg hsucc, if_neg hsucc]
              exact ⟨by trivial, scrubDB_updateTransaction db now _ _ rfl⟩

/-- C7 witness: a payload claiming deny/fraud and one claiming
settlement, otherwise identical, produce the same outcome and the same
scrubbed store when the gateway authoritatively reports settlement. -/
theorem C7_webhook_ignores_payload_status_witness :
    (handleWebhook exDbStale exClientSettle
        ⟨some "ORD-B", some "200", some "250000.00", none, some "deny", some "x"⟩
        ⟨2026, 10, 11⟩).2
      = (handleWebhook exDbStale exClientSettle
        ⟨some "ORD-B", some "200", some "250000.00", none, some "settlement", none⟩
        ⟨2026, 10, 11⟩).2 ∧
    scrubDB (handleWebhook exDbStale exClientSettle
        ⟨some "ORD-B", some "200", some "250000.00", none, some "deny", some "x"⟩
        ⟨2026, 10, 11⟩).1
      = scrubDB (handleWebhook exDbStale exClientSettle
        ⟨some "ORD-B", some "200", some "250000.00", none, some "settlement", none⟩
        ⟨2026, 10, 11⟩).1 :=
  C7_webhook_ignores_payload_status exDbStale exClientSettle
    ⟨some "ORD-B", some "200", some "250000.00", none, some "deny", some "x"⟩
    ⟨some "ORD-B", some "200", some "250000.00", none, some "settlement", none⟩
    ⟨2026, 10, 11⟩ rfl rfl rfl rfl

theorem scrubPaidDB_updateTransaction (db : DB) (now : DateTime) (t1 t2 : Transaction)
    (hsc : scrubAuditPaid t1 = scrubAuditPaid t2) :
    scrubPaidDB (updateTransaction db t1 now) = scrubPaidDB (updateTransaction db t2 now) := by
  obtain ⟨a1, b1, c1, d1, e1, f1, g1, h1, i1, j1, k1, l1, m1, n1, o1, p1, q1, r1, s1, u1⟩ := t1
  obtain ⟨a2, b2, c2, d2, e2, f2, g2, h2, i2, j2, k2, l2, m2, n2, o2, p2, q2, r2, s2, u2⟩ := t2
  simp only [scrubAuditPaid] at hsc
  injection hsc with hA hB hC hD hE hF hG hH hI hJ hK hL hM hN hO hP hQ hR hS hU
  rw [hA, hB, hC, hD, hE, hF, hG, hH, hI, hJ, hK, hL, hM, hN, hQ, hR, hS, hU]
  unfold scrubPaidDB updateTransaction
  congr 1
  rw [List.map_map, List.map_map]
  apply List.map_congr_left
  intro x _
  simp only [Function.comp]
  by_cases hx : x.id = a2 ∧ x.deletedAt = none
  · rw [if_pos hx, if_pos hx]
    obtain ⟨xa, xb, xc, xd, xe, xf, xg, xh, xi, xj, xk, xl, xm, xn, xo, xp, xq, xr, xs, xt⟩ := x
    simp [scrubAuditPaid]
  · rw [if_neg hx, if_neg hx]

/-- C8 counterexample: the two reconciliation entry points do not persist
the same transaction fields.  For the same pending ORD-B and the same
settlement-reporting gateway, (i) the webhook stores the raw payload
audit blob while the poll does not, so the stores differ; (ii) for a
pending transaction that already carries a subscriptionId (the §7 retry
situation), the webhook stamps paidAt but the poll does not, so the
stores differ even after erasing the audit blobs. -/
theorem C8_poll_webhook_counterexample :
    (handleWebhook exDbStale exClientSettle exPayloadB ⟨2026, 10, 11⟩).1
      ≠ (checkTransactionStatus exDbStale exClientSettle "ORD-B" ⟨2026, 10, 11⟩).1 ∧
    scrubDB (handleWebhook exDbStaleSub exClientSettle exPayloadB ⟨2026, 10, 11⟩).1
      ≠ scrubDB (checkTransactionStatus exDbStaleSub exClientSettle "ORD-B" ⟨2026, 10, 11⟩).1 := by
  constructor
  · decide
  · decide

/-- C8 amended: for the same order and gateway response, the poll is
equivalent to the signature-free webhook path up to the audit blob and
the paidAt stamp: same lookup, same terminal short-circuit, same gateway
re-query, same status mapping, same subscription-creation condition and
effect, same error outcomes; the persisted rows agree once
midtransResponse and paidAt are erased, and — when the transaction has no
subscription attached yet — they agree already after erasing only
midtransResponse (the webhook additionally stores the raw payload, and
additionally stamps paidAt when a subscription is already attached). -/
theorem C8_poll_webhook_equiv_amended (db : DB) (c : MidtransClient) (p : WebhookPayload)
    (now : DateTime) (oid : String)
    (hord : p.order_id.getD "" = oid) (hne : oid ≠ "")
    (hsig : p.signature_key.getD "" = "") :
    (handleWebhook db c p now).2
      = ((checkTransactionStatus db c oid now).2).map (fun _ => ()) ∧
    scrubPaidDB (handleWebhook db c p now).1
      = scrubPaidDB (checkTransactionStatus db c oid now).1 ∧
    (∀ tx, findTxByOrderId db oid = some tx → tx.subscriptionId = none →
      scrubDB (handleWebhook db c p now).1
        = scrubDB (checkTransactionStatus db c oid now).1) := by
  simp only [handleWebhook, checkTransactionStatus, hord, createSubscription_proj]
  rw [if_neg hne]
  rw [if_neg (fun hbad => hbad.1 hsig)]
  cases hf : findTxByOrderId db oid with
  | none =>
    simp only [hf]
    refine ⟨by trivial, by trivial, ?_⟩
    intro tx htx
    simp at htx
  | some tx =>
    simp only [hf]
    by_cases ht : tx.status = .success ∨ tx.status = .failed
    · rw [if_pos ht, if_pos ht]
      refine ⟨by trivial, by trivial, ?_⟩
      intro tx2 htx hsub
      trivial
    · rw [if_neg ht, if_neg ht]
      cases hg : c.checkTransaction oid with
      | none =>
        simp only [hg]
        refine ⟨by trivial, by trivial, ?_⟩
        intro tx2 htx hsub
        trivial
      | some resp =>
        simp only [hg]
        by_cases hsucc : mapMidtransStatus resp.transactionStatus resp.fraudStatus
            = TransactionStatus.success
        · by_cases hsub : tx.subscriptionId = none
          · rw [if_pos hsucc, if_pos hsub, if_pos ⟨hsucc, hsub⟩]
            cases hcs : createSubscriptionPU db tx.planId tx.userId now with
            | none =>
              simp only [hcs]
              refine ⟨by trivial, by trivial, ?_⟩
              intro tx2 htx hsub2
              trivial
            | some pr =>
              obtain ⟨sid, db1⟩ := pr
              simp only [hcs]
              refine ⟨by trivial, scrubPaidDB_updateTransaction db1 now _ _ rfl, ?_⟩
              intro tx2 htx hsub2
              exact scrubDB_updateTransaction db1 now _ _ rfl
          · rw [if_pos hsucc, if_neg hsub, if_neg (fun hand => hsub hand.2)]
            refine ⟨by trivial, scrubPaidDB_updateTransaction db now _ _ rfl, ?_⟩
            intro tx2 htx hsub2
            injection htx with htx
            subst htx
            exact absurd hsub2 hsub
        · rw [if_neg hsucc, if_neg (fun hand => hsucc hand.1)]
          refine ⟨by trivial, scrubPaidDB_updateTransaction db now _ _ rfl, ?_⟩
          intro tx2 htx hsub2
          exact scrubDB_updateTransaction db now _ _ rfl

/-- C8 amended witness: for pending ORD-B with no attached subscription,
webhook and poll agree on outcome, on the paid-and-audit-scrubbed store,
and even on the audit-scrubbed store. -/
theorem C8_poll_webhook_equiv_amended_witness :
    (handleWebhook exDbStale exClientSettle exPayloadB ⟨2026, 10, 11⟩).2
      = ((checkTransactionStatus exDbStale exClientSettle "ORD-B" ⟨2026, 10, 11⟩).2).map
          (fun _ => ()) ∧
    scrubPaidDB (handleWebhook exDbStale exClientSettle exPayloadB ⟨2026, 10, 11⟩).1
      = scrubPaidDB (checkTransactionStatus exDbStale exClientSettle "ORD-B" ⟨2026, 10, 11⟩).1 ∧
    scrubDB (handleWebhook exDbStale exClientSettle exPayloadB ⟨2026, 10, 11⟩).1
      = scrubDB (checkTransactionStatus exDbStale exClientSettle "ORD-B" ⟨2026, 10, 11⟩).1 := by
  obtain ⟨h1, h2, h3⟩ := C8_poll_webhook_equiv_amended exDbStale exClientSettle exPayloadB
    ⟨2026, 10, 11⟩ "ORD-B" (by decide) (by decide) (by decide)
  exact ⟨h1, h2, h3 exTxB (by decide) (by decide)⟩

/-- C6 counterexample: with a plan priced 3/2 (a fractional decimal the
admin path does not forbid), the amount sent to the gateway is
`IntPart(price) = 1`, which is not equal to the plan price: two gateways
that agree on every request whose amount equals the plan price (no
integer request amount does) still produce different outcomes — the run
succeeds only with the gateway accepting amount 1 — while the persisted
row stores the exact decimal 3/2.  So "the amount sent to the gateway
equals the plan price" fails as stated. -/
theorem C6_price_trust_counterexample :
    ((intPart exPlanFrac.price : Int) : Rat) ≠ exPlanFrac.price ∧
    createTransaction exDbFrac exClientAmount1 7 ⟨3⟩ ⟨2026, 10, 11⟩
      ≠ createTransaction exDbFrac exClientNoSnap 7 ⟨3⟩ ⟨2026, 10, 11⟩ ∧
    ((match (createTransaction exDbFrac exClientAmount1 7 ⟨3⟩ ⟨2026, 10, 11⟩).2 with
      | .ok resp => decide (resp.transaction.grossAmount = exPlanFrac.price)
      | .error _ => false) = true) := by
  refine ⟨by decide, by decide, by decide⟩

/-- C6 amended: every successful CreateTransaction persists the exact
decimal plan price as the transaction grossAmount; the gateway is
consulted only at the integer part of the plan price (equal to the price
for whole-number prices) and at nothing dependent on the request; and the
outcome depends on the request only through planId — the request type
carries nothing else. -/
theorem C6_price_trust_amended (db : DB) (c : MidtransClient) (u : Nat)
    (req : CreateTransactionRequest) (now : DateTime) (plan : Plan)
    (hplan : planFindByID db req.planId = some plan) :
    (∀ db2 resp, createTransaction db c u req now = (db2, .ok resp) →
      resp.transaction.grossAmount = plan.price ∧ resp.transaction ∈ db2.transactions) ∧
    (∀ f g : SnapRequest → Option SnapResp,
      (∀ r, r.grossAmount = intPart plan.price → f r = g r) →
      createTransaction db { c with createSnapTransaction := f } u req now
        = createTransaction db { c with createSnapTransaction := g } u req now) ∧
    (∀ req2 : CreateTransactionRequest, req2.planId = req.planId →
      createTransaction db c u req2 now = createTransaction db c u req now) := by
  refine ⟨?_, ?_, ?_⟩
  · intro db2 resp h
    simp only [createTransaction, hplan] at h
    split at h
    · simp at h
    · split at h
      · simp at h
      · split at h
        · simp at h
        · split at h
          · simp at h
          · split at h
            · simp at h
            · rw [Prod.mk.injEq] at h
              obtain ⟨hdb, hresp⟩ := h
              subst hdb
              injection hresp with hresp
              subst hresp
              exact ⟨rfl, List.mem_append_right _ (List.mem_singleton_self _)⟩
  · intro f g hfg
    simp only [createTransaction, hplan]
    by_cases h1 : plan.isActive = false
    · rw [if_pos h1, if_pos h1]
    · rw [if_neg h1, if_neg h1]
      by_cases h2 : plan.price = 0
      · rw [if_pos h2, if_pos h2]
      · rw [if_neg h2, if_neg h2]
        by_cases h3 : (match findActiveByUserID db u now with
          | some swp => decide (swp.sub.planId = req.planId)
          | none => false) = true
        · rw [if_pos h3, if_pos h3]
        · rw [if_neg h3, if_neg h3]
          cases huser : userFindByID db u with
          | none => simp only [huser]
          | some user =>
            simp only [huser]
            rw [hfg { orderId := mkOrderId plan.id u now
                    , grossAmount := intPart plan.price
                    , itemDetails := [ { id := toString plan.id, name := plan.displayName
                                       , price := intPart plan.price, quantity := 1 } ]
                    , customer := { firstName := user.name, email := user.email } } rfl]
  · intro req2 h
    obtain ⟨pid2⟩ := req2
    obtain ⟨pid⟩ := req
    cases h
    rfl

/-- C6 amended witness: purchasing the 150000 plan persists grossAmount
150000 and inserts the row; a gateway altered only away from
amount-150000 requests gives the same run; two identical one-field
requests coincide. -/
theorem C6_price_trust_amended_witness :
    exRespCT.transaction.grossAmount = exPlanPro.price ∧
    exRespCT.transaction
      ∈ (createTransaction exDbCT exClientSettle 7 ⟨1⟩ ⟨2026, 10, 11⟩).1.transactions ∧
    createTransaction exDbCT
        { exClientSettle with createSnapTransaction :=
            fun r => if r.grossAmount = 150000 then some ⟨"tok", "url"⟩ else none }
        7 ⟨1⟩ ⟨2026, 10, 11⟩
      = createTransaction exDbCT exClientSettle 7 ⟨1⟩ ⟨2026, 10, 11⟩ := by
  obtain ⟨ha, hb, hc⟩ := C6_price_trust_amended exDbCT exClientSettle 7 ⟨1⟩ ⟨2026, 10, 11⟩
    exPlanPro (by decide)
  have hrun := ha ((createTransaction exDbCT exClientSettle 7 ⟨1⟩ ⟨2026, 10, 11⟩).1) exRespCT
    (by decide)
  refine ⟨hrun.1, hrun.2, ?_⟩
  exact hb (fun r => if r.grossAmount = 150000 then some ⟨"tok", "url"⟩ else none)
    exClientSettle.createSnapTransaction (fun r hr => by simp only [hr]; rfl)

end Careerly
